import Mathlib

/-!
Verification of the free-gift cart reconciliation logic of this Shopify theme.

The repository contains several coexisting implementations of the same
reconciler.  We embed:

* version B, the richest one (the second `CartFreeGifts` class in
  `assets/cart-free-gifts.js`, also present as `unnamed/part_001`):
  `checkAndUpdateGifts`, `handleGift`, `calculateCartTotalExcludingFreeGifts`,
  `hasPaidItems`, `removeAllFreeGifts`, `isGiftInCart`, `isFreeGiftItem`,
  `handleQuantityUpdate`, `updateMilestones`;
* version A (the first `CartFreeGifts` class in `assets/cart-free-gifts.js`),
  whose pass uses the raw `cart.total_price`;
* the legacy manager of `unnamed/part_000` (`processCartGifts`,
  `ensureGiftInCart`).

Machine integers are embedded as `Nat` (all quantities in the source are
non-negative minor currency units and counts); the JavaScript `x || y`
fallback on numbers is embedded as a zero test, since `0` is the only falsy
number that occurs.  Network effects are embedded by passing the outcome of
each platform request as an explicit argument.
-/

/-- A cart line as returned by the platform `/cart.js` endpoint.  `line` is 0
when the platform omits the 1-based line number (it does); `auto_gift` records
whether the line carries the internal marker property written by
`addGiftToCart` (the reconciler never reads it back). -/
structure CartItem where
  variant_id : Nat
  quantity : Nat
  final_line_price : Nat
  line_price : Nat
  line : Nat
  auto_gift : Bool
deriving DecidableEq, Repr

/-- A cart snapshot as returned by `/cart.js`. -/
structure Cart where
  total_price : Nat
  item_count : Nat
  items : List CartItem
deriving DecidableEq, Repr

/-- One entry of the hard-coded `FREE_GIFT_CONFIG` table. -/
structure GiftConfig where
  variantId : Nat
  threshold : Nat
deriving DecidableEq, Repr

/-- `FREE_GIFT_CONFIG.gift5000`. -/
def gift5000 : GiftConfig := ⟨55378709479497, 500000⟩

/-- `FREE_GIFT_CONFIG.gift8000`. -/
def gift8000 : GiftConfig := ⟨55378884591689, 800000⟩

/-- `CartFreeGifts.isFreeGiftItem` of versions B and `part_001`: a line is a
free gift exactly when its variant id matches one of the two configured gift
variant ids; the `_auto_gift` marker property is not consulted. -/
def isFreeGiftItem (item : CartItem) : Bool :=
  item.variant_id == gift5000.variantId || item.variant_id == gift8000.variantId

/-- The line price as read by version B: `final_line_price || line_price || 0`. -/
def linePrice (item : CartItem) : Nat :=
  if item.final_line_price ≠ 0 then item.final_line_price else item.line_price

/-- `CartFreeGifts.calculateCartTotalExcludingFreeGifts` of version B: sum the
line prices of the non-gift lines. -/
def calculateCartTotalExcludingFreeGifts (cart : Cart) : Nat :=
  cart.items.foldl
    (fun total item => if isFreeGiftItem item then total else total + linePrice item) 0

/-- `CartFreeGifts.hasPaidItems` of version B: some line is not a free gift. -/
def hasPaidItems (cart : Cart) : Bool :=
  cart.items.any (fun item => !isFreeGiftItem item)

/-- `CartFreeGifts.isGiftInCart`: some line carries the given variant id. -/
def isGiftInCart (cart : Cart) (variantId : Nat) : Bool :=
  cart.items.any (fun item => item.variant_id == variantId)

/-- A mutation issued against the platform cart endpoints: `add v q` is a
`POST /cart/add.js` of quantity `q` of variant `v` (tagged `_auto_gift`), and
`change ln q` is a `POST /cart/change.js` setting 1-based line `ln` to
quantity `q`. -/
inductive CartAction where
  | add (variantId quantity : Nat)
  | change (line quantity : Nat)
deriving DecidableEq, Repr

/-- `Array.prototype.findIndex` on a variant id, returning `none` for `-1`. -/
def findVariantIdx : List CartItem → Nat → Option Nat
  | [], _ => none
  | item :: rest, v =>
    if item.variant_id == v then some 0 else (findVariantIdx rest v).map (· + 1)

/-- `CartFreeGifts.addGiftToCart`: the mutation it issues. -/
def addGiftToCart (variantId : Nat) : List CartAction :=
  [CartAction.add variantId 1]

/-- `CartFreeGifts.removeGiftFromCart`: find the line of the variant in the
snapshot and set its quantity to 0, the line number being the item `line`
field when present and the 1-based array index otherwise. -/
def removeGiftFromCart (cart : Cart) (variantId : Nat) : List CartAction :=
  match findVariantIdx cart.items variantId with
  | none => []
  | some idx =>
    match cart.items.get? idx with
    | none => []
    | some giftItem =>
      [CartAction.change (if giftItem.line ≠ 0 then giftItem.line else idx + 1) 0]

/-- `CartFreeGifts.handleGift`: add the gift when the total reaches the
threshold and it is absent, remove it when the total is below the threshold
and it is present. -/
def handleGift (cart : Cart) (giftConfig : GiftConfig) (cartTotal : Nat) : List CartAction :=
  let inCart := isGiftInCart cart giftConfig.variantId
  let shouldHaveGift := decide (giftConfig.threshold ≤ cartTotal)
  if shouldHaveGift && !inCart then addGiftToCart giftConfig.variantId
  else if !shouldHaveGift && inCart then removeGiftFromCart cart giftConfig.variantId
  else []

/-- `CartFreeGifts.removeAllFreeGifts` of version B: one `removeGiftFromCart`
call per gift line of the snapshot, all computed against the same snapshot. -/
def removeAllFreeGifts (cart : Cart) : List CartAction :=
  ((cart.items.filter isFreeGiftItem).map
    (fun item => removeGiftFromCart cart item.variant_id)).flatten

/-- The `cartItemCount` local of version B: `cart.item_count || cart.items.length`. -/
def cartItemCount (cart : Cart) : Nat :=
  if cart.item_count ≠ 0 then cart.item_count else cart.items.length

/-- `CartFreeGifts.checkAndUpdateGifts` of version B: the mutations issued by
one reconciliation pass over a fetched cart snapshot.  All decisions,
including the line numbers of removals, are computed from the snapshot. -/
def checkAndUpdateGifts (cart : Cart) : List CartAction :=
  if cart.items.length == 0 || cartItemCount cart == 0 then removeAllFreeGifts cart
  else if !hasPaidItems cart then removeAllFreeGifts cart
  else
    let cartTotal := calculateCartTotalExcludingFreeGifts cart
    if cartTotal == 0 then removeAllFreeGifts cart
    else handleGift cart gift8000 cartTotal ++ handleGift cart gift5000 cartTotal

/-- The qualifying subtotal of version A: the raw `cart.total_price || 0`. -/
def qualifyingSubtotalA (cart : Cart) : Nat :=
  cart.total_price

/-- `CartFreeGifts.checkAndUpdateGifts` of version A: handle the 8000 gift
then the 5000 gift against `cart.total_price`. -/
def checkAndUpdateGiftsA (cart : Cart) : List CartAction :=
  let cartTotal := qualifyingSubtotalA cart
  handleGift cart gift8000 cartTotal ++ handleGift cart gift5000 cartTotal

/-- `CartFreeGifts.ensureGiftInCart` of `unnamed/part_000` (gift products
loaded with the fallback table, hence available): add the gift unless a line
of the variant with positive quantity is present. -/
def ensureGiftInCart (cart : Cart) (variantId : Nat) : List CartAction :=
  match cart.items.find? (fun item => item.variant_id == variantId) with
  | some giftInCart => if 0 < giftInCart.quantity then [] else [CartAction.add variantId 1]
  | none => [CartAction.add variantId 1]

/-- `CartFreeGifts.removeGiftFromCart` of `unnamed/part_000`: nothing when the
variant is not tracked in the cart, otherwise set its 1-based line to 0. -/
def removeGiftFromCartLegacy (cart : Cart) (variantId : Nat) : List CartAction :=
  match cart.items.find? (fun item => item.variant_id == variantId) with
  | none => []
  | some _ =>
    match findVariantIdx cart.items variantId with
    | none => []
    | some idx => [CartAction.change (idx + 1) 0]

/-- `CartFreeGifts.processCartGifts` of `unnamed/part_000`: the 8000 threshold
is tested first; at or above it both gifts are ensured, 8000 first. -/
def processCartGifts (cart : Cart) : List CartAction :=
  if 800000 ≤ cart.total_price then
    ensureGiftInCart cart gift8000.variantId ++ ensureGiftInCart cart gift5000.variantId
  else if 500000 ≤ cart.total_price then
    ensureGiftInCart cart gift5000.variantId ++ removeGiftFromCartLegacy cart gift8000.variantId
  else
    removeGiftFromCartLegacy cart gift5000.variantId ++
      removeGiftFromCartLegacy cart gift8000.variantId

/-- Helper for `applyChange`: set the quantity of the 0-indexed entry. -/
def setLineQuantity : List CartItem → Nat → Nat → List CartItem
  | [], _, _ => []
  | item :: rest, 0, q => { item with quantity := q } :: rest
  | item :: rest, n + 1, q => item :: setLineQuantity rest n q

/-- Modelled from the spec: the platform `POST /cart/add.js` endpoint creates
a new line for the added variant (the reconciler only adds a gift while its
variant is absent), listed first in later `/cart.js` snapshots, carrying the
`_auto_gift` marker property and the platform-owned price of the variant. -/
def applyAdd (priceOf : Nat → Nat) (items : List CartItem) (variantId quantity : Nat) :
    List CartItem :=
  ⟨variantId, quantity, priceOf variantId * quantity, priceOf variantId * quantity, 0, true⟩
    :: items

/-- Modelled from the spec: the platform `POST /cart/change.js` endpoint sets
the quantity of the given 1-based line, deleting the line at quantity 0; a
line number outside the cart is a platform-rejected mutation and leaves the
cart unchanged. -/
def applyChange (items : List CartItem) (line quantity : Nat) : List CartItem :=
  if line = 0 ∨ items.length < line then items
  else if quantity = 0 then items.eraseIdx (line - 1)
  else setLineQuantity items (line - 1) quantity

/-- Apply one issued mutation to the platform cart state. -/
def applyAction (priceOf : Nat → Nat) (items : List CartItem) : CartAction → List CartItem
  | CartAction.add v q => applyAdd priceOf items v q
  | CartAction.change ln q => applyChange items ln q

/-- Apply the issued mutations in order to the platform cart state. -/
def applyActions (priceOf : Nat → Nat) (items : List CartItem)
    (actions : List CartAction) : List CartItem :=
  actions.foldl (applyAction priceOf) items

/-- The platform cart state after one completed version-B reconciliation pass
over the snapshot `cart`. -/
def runPass (priceOf : Nat → Nat) (cart : Cart) : List CartItem :=
  applyActions priceOf cart.items (checkAndUpdateGifts cart)

/-- Modelled from the spec: a later `GET /cart.js` snapshot of a platform cart
state, with the platform-computed totals. -/
def refetchCart (items : List CartItem) : Cart :=
  ⟨(items.map (fun i => i.final_line_price)).sum, (items.map (fun i => i.quantity)).sum, items⟩

/-- Result of `CartFreeGifts.handleQuantityUpdate`: whether the notification
was vetoed (`preventDefault`) and the mutations issued. -/
structure QuantityUpdateResult where
  vetoed : Bool
  actions : List CartAction
deriving DecidableEq, Repr

/-- `CartFreeGifts.handleQuantityUpdate` of version B and `part_001`, as a
function of the freshly fetched cart and of the `cartLine` and `quantity` of
the notification.  A falsy (zero) line or quantity returns early. -/
def handleQuantityUpdate (fetchedCart : Option Cart) (cartLine quantity : Nat) :
    QuantityUpdateResult :=
  match fetchedCart with
  | none => ⟨false, []⟩
  | some cart =>
    if cartLine == 0 || quantity == 0 then ⟨false, []⟩
    else
      match cart.items.get? (cartLine - 1) with
      | none => ⟨false, []⟩
      | some cartItem =>
        if isFreeGiftItem cartItem && quantity != 1 then
          ⟨true, [CartAction.change cartLine 1]⟩
        else ⟨false, []⟩

/-- Observable outcome of one entry into the gift check: how many times
`/cart.js` was fetched, the mutations issued, the processing flag after. -/
structure GiftCheckRun where
  cartFetches : Nat
  actions : List CartAction
  isProcessingAfter : Bool
deriving DecidableEq, Repr

/-- The guarded entry of `CartFreeGifts.checkAndUpdateGifts`: when the
in-flight `isProcessing` flag is set the invocation returns at once, fetching
nothing and issuing nothing; otherwise it fetches the cart and, when the
fetch yields a cart, runs the pass, clearing the flag at the end. -/
def checkAndUpdateGiftsEntry (isProcessing : Bool) (fetchResult : Option Cart) :
    GiftCheckRun :=
  if isProcessing then ⟨0, [], true⟩
  else
    match fetchResult with
    | none => ⟨1, [], false⟩
    | some cart => ⟨1, checkAndUpdateGifts cart, false⟩

/-- Outcome of one platform HTTP request: a network-level failure (the fetch
promise rejected), or a response with an HTTP ok flag and a body, `none`
standing for a body that is not valid JSON. -/
inductive HttpOutcome (β : Type) where
  | networkFailure : HttpOutcome β
  | response (ok : Bool) (body : Option β) : HttpOutcome β
deriving DecidableEq, Repr

/-- `CartFreeGifts.fetchCart`: a non-ok response or any thrown error is caught
and yields `null`; otherwise the parsed cart is returned. -/
def fetchCart (outcome : HttpOutcome Cart) : Option Cart :=
  match outcome with
  | HttpOutcome.networkFailure => none
  | HttpOutcome.response ok body => if ok then body else none

/-- Body of a `/cart/add.js` response, as far as the code reads it: the
optional numeric `status` field of a platform error payload. -/
structure AddResponseBody where
  status : Option Nat
deriving DecidableEq, Repr

/-- Truthiness of `data.status` in `addGiftToCart`. -/
def dataStatusTruthy (data : AddResponseBody) : Bool :=
  match data.status with
  | some s => s != 0
  | none => false

/-- Body of a `/cart/change.js` response, as far as the code reads it:
whether the payload carries a truthy `errors` field. -/
structure ChangeResponseBody where
  errors : Bool
deriving DecidableEq, Repr

/-- Observable outcome of one gift mutation request: whether a cart-changed
event was dispatched and whether an error was logged to the console. -/
structure MutationRun where
  dispatchedCartEvent : Bool
  loggedError : Bool
deriving DecidableEq, Repr

/-- Error path of `CartFreeGifts.addGiftToCart`: a network failure or a
JSON-parse throw is caught and logged; a truthy `data.status` is logged and
returns; only otherwise is the `CartAddEvent` dispatched.  The HTTP ok flag
of the response is never consulted. -/
def addGiftToCartRun (outcome : HttpOutcome AddResponseBody) : MutationRun :=
  match outcome with
  | HttpOutcome.networkFailure => ⟨false, true⟩
  | HttpOutcome.response _ok body =>
    match body with
    | none => ⟨false, true⟩
    | some data => if dataStatusTruthy data then ⟨false, true⟩ else ⟨true, false⟩

/-- Error path of `CartFreeGifts.removeGiftFromCart`: a network failure or a
JSON-parse throw is caught and logged; a truthy `data.errors` is logged and
returns; only otherwise is the `CartUpdateEvent` dispatched.  The HTTP ok
flag of the response is never consulted. -/
def removeGiftFromCartRun (outcome : HttpOutcome ChangeResponseBody) : MutationRun :=
  match outcome with
  | HttpOutcome.networkFailure => ⟨false, true⟩
  | HttpOutcome.response _ok body =>
    match body with
    | none => ⟨false, true⟩
    | some data => if data.errors then ⟨false, true⟩ else ⟨true, false⟩

/-- `CartFreeGifts.updateMilestones` of version B, progress computation: 100%
at the 8000 milestone, a clamped linear ramp of the band between the
milestones, and a clamped linear ramp of the first band below 5000. -/
def updateMilestonesProgress (cartTotal : Nat) : ℚ :=
  if 800000 ≤ cartTotal then 100
  else if 500000 ≤ cartTotal then
    let progressAfter5000 := ((cartTotal : ℚ) - 500000) / 300000 * 50
    let p := 50 + progressAfter5000
    if 100 < p then 100 else p
  else
    let p := (cartTotal : ℚ) / 500000 * 50
    if 50 < p then 50 else p

/-- The `milestone5000Reached` flag of `updateMilestones`. -/
def milestone5000Reached (cartTotal : Nat) : Bool :=
  decide (500000 ≤ cartTotal)

/-- The `milestone8000Reached` flag of `updateMilestones`. -/
def milestone8000Reached (cartTotal : Nat) : Bool :=
  decide (800000 ≤ cartTotal)

/-- Definition following the words of the spec glossary, for comparison with
the implementations: the qualifying subtotal is the cart total minus the
price of the gift line items. -/
def specQualifyingSubtotal (cart : Cart) : Nat :=
  cart.total_price - ((cart.items.filter isFreeGiftItem).map linePrice).sum

/-- Proof-side helper: the sum of non-gift line prices, recursively. -/
def nonGiftSum : List CartItem → Nat
  | [] => 0
  | item :: rest => (if isFreeGiftItem item then 0 else linePrice item) + nonGiftSum rest

/-- Example line: a paid (non-gift) product at the given line price. -/
def paidItem (price : Nat) : CartItem := ⟨7777, 1, price, price, 0, false⟩

/-- Example line: the 5000-threshold gift variant as an auto-added cart line. -/
def gift5000Line : CartItem := ⟨gift5000.variantId, 1, 100000, 100000, 0, true⟩

/-- Example line: the 8000-threshold gift variant as an auto-added cart line. -/
def gift8000Line : CartItem := ⟨gift8000.variantId, 1, 100000, 100000, 0, true⟩

/-- Example line: the 8000 gift variant added manually at full price, without
the `_auto_gift` marker property. -/
def manualGift8000Line : CartItem := ⟨gift8000.variantId, 1, 150000, 150000, 0, false⟩

/-! ### Bridging lemmas between the code-shaped definitions and proof-side sums -/

theorem foldl_nonGift_eq (l : List CartItem) (a : Nat) :
    l.foldl (fun total item => if isFreeGiftItem item then total else total + linePrice item) a
      = a + nonGiftSum l := by
  induction l generalizing a with
  | nil => simp [nonGiftSum]
  | cons i rest ih =>
    by_cases h : isFreeGiftItem i = true
    · simp [nonGiftSum, h, ih]
    · simp only [Bool.not_eq_true] at h
      simp [nonGiftSum, h, ih]
      omega

theorem calculate_eq_nonGiftSum (c : Cart) :
    calculateCartTotalExcludingFreeGifts c = nonGiftSum c.items := by
  simpa [calculateCartTotalExcludingFreeGifts] using foldl_nonGift_eq c.items 0

theorem isFreeGiftItem_iff {i : CartItem} :
    isFreeGiftItem i = true ↔
      i.variant_id = gift5000.variantId ∨ i.variant_id = gift8000.variantId := by
  simp [isFreeGiftItem]

theorem isFreeGiftItem_of_variant {i : CartItem} {v : Nat}
    (hv : v = gift5000.variantId ∨ v = gift8000.variantId) (h : i.variant_id = v) :
    isFreeGiftItem i = true :=
  isFreeGiftItem_iff.mpr (by rcases hv with hv | hv <;> [left; right] <;> rw [h, hv])

theorem nonGiftSum_append (a b : List CartItem) :
    nonGiftSum (a ++ b) = nonGiftSum a + nonGiftSum b := by
  induction a with
  | nil => simp [nonGiftSum]
  | cons i rest ih => simp [nonGiftSum, ih]; omega

theorem nonGiftSum_cons_gift {i : CartItem} (h : isFreeGiftItem i = true)
    (l : List CartItem) : nonGiftSum (i :: l) = nonGiftSum l := by
  simp [nonGiftSum, h]

theorem hasPaid_of_nonGiftSum_ne {l : List CartItem} (h : nonGiftSum l ≠ 0) :
    l.any (fun item => !isFreeGiftItem item) = true := by
  induction l with
  | nil => simp [nonGiftSum] at h
  | cons i rest ih =>
    by_cases hg : isFreeGiftItem i = true
    · rw [nonGiftSum_cons_gift hg] at h
      simp [ih h]
    · simp only [Bool.not_eq_true] at hg
      simp [hg]

theorem nonGiftSum_eq_zero_of_all_gift {l : List CartItem}
    (h : ∀ i ∈ l, isFreeGiftItem i = true) : nonGiftSum l = 0 := by
  induction l with
  | nil => rfl
  | cons i rest ih =>
    rw [nonGiftSum_cons_gift (h i (by simp))]
    exact ih fun j hj => h j (by simp [hj])

theorem isGiftInCart_iff {c : Cart} {v : Nat} :
    isGiftInCart c v = true ↔ ∃ i ∈ c.items, i.variant_id = v := by
  simp [isGiftInCart, List.any_eq_true]

/-! ### Lemmas about `findVariantIdx` and `removeGiftFromCart` -/

theorem findVariantIdx_lt_length {l : List CartItem} {v idx : Nat}
    (h : findVariantIdx l v = some idx) : idx < l.length := by
  induction l generalizing idx with
  | nil => simp [findVariantIdx] at h
  | cons i rest ih =>
    rw [findVariantIdx] at h
    by_cases hv : (i.variant_id == v) = true
    · rw [if_pos hv] at h
      simp at h
      simp [List.length_cons]
      omega
    · rw [if_neg hv] at h
      match hr : findVariantIdx rest v with
      | none => rw [hr] at h; simp at h
      | some j =>
        rw [hr] at h
        simp at h
        have := ih hr
        simp [List.length_cons]
        omega

theorem findVariantIdx_get {l : List CartItem} {v idx : Nat}
    (h : findVariantIdx l v = some idx) :
    ∃ item, l.get? idx = some item ∧ item.variant_id = v := by
  induction l generalizing idx with
  | nil => simp [findVariantIdx] at h
  | cons i rest ih =>
    rw [findVariantIdx] at h
    by_cases hv : (i.variant_id == v) = true
    · rw [if_pos hv] at h
      simp at h
      subst h
      exact ⟨i, rfl, by simpa using hv⟩
    · rw [if_neg hv] at h
      match hr : findVariantIdx rest v with
      | none => rw [hr] at h; simp at h
      | some j =>
        rw [hr] at h
        simp at h
        obtain ⟨item, hget, hvar⟩ := ih hr
        exact ⟨item, by simpa [← h] using hget, hvar⟩

theorem findVariantIdx_some_of_mem {l : List CartItem} {v : Nat} {i : CartItem}
    (hi : i ∈ l) (hv : i.variant_id = v) : ∃ idx, findVariantIdx l v = some idx := by
  induction l with
  | nil => simp at hi
  | cons a rest ih =>
    rw [findVariantIdx]
    by_cases ha : (a.variant_id == v) = true
    · exact ⟨0, by rw [if_pos ha]⟩
    · rcases List.mem_cons.mp hi with rfl | hi
      · exact absurd (by simp [hv]) ha
      · obtain ⟨idx, hidx⟩ := ih hi
        exact ⟨idx + 1, by rw [if_neg ha, hidx]; rfl⟩

theorem removeGiftFromCart_form {c : Cart} {v : Nat}
    (hp : ∃ i ∈ c.items, i.variant_id = v) :
    ∃ idx item, c.items.get? idx = some item ∧ item.variant_id = v ∧
      removeGiftFromCart c v =
        [CartAction.change (if item.line ≠ 0 then item.line else idx + 1) 0] := by
  obtain ⟨i, hi, hv⟩ := hp
  obtain ⟨idx, hidx⟩ := findVariantIdx_some_of_mem hi hv
  obtain ⟨item, hget, hvar⟩ := findVariantIdx_get hidx
  have hg2 : c.items[idx]? = some item := by rw [← List.get?_eq_getElem?]; exact hget
  exact ⟨idx, item, hget, hvar, by simp [removeGiftFromCart, hidx, hg2]⟩

theorem removeGiftFromCart_spec {c : Cart} {v : Nat}
    (hline : ∀ i ∈ c.items, i.line = 0)
    (hp : ∃ i ∈ c.items, i.variant_id = v) :
    ∃ idx item, c.items.get? idx = some item ∧ item.variant_id = v ∧
      removeGiftFromCart c v = [CartAction.change (idx + 1) 0] := by
  obtain ⟨idx, item, hget, hvar, heq⟩ := removeGiftFromCart_form hp
  have hmem : item ∈ c.items := List.get?_mem hget
  refine ⟨idx, item, hget, hvar, ?_⟩
  rw [heq, hline item hmem]
  simp

theorem removeGiftFromCart_ne_nil {c : Cart} {v : Nat}
    (hp : ∃ i ∈ c.items, i.variant_id = v) : removeGiftFromCart c v ≠ [] := by
  obtain ⟨_, _, _, _, heq⟩ := removeGiftFromCart_form hp
  simp [heq]

/-! ### Branch structure of `checkAndUpdateGifts` -/

theorem cartItemCount_ne_zero {c : Cart} (h : c.items ≠ []) : cartItemCount c ≠ 0 := by
  rw [cartItemCount]
  split
  · assumption
  · simpa [List.length_eq_zero] using h

theorem checkAndUpdateGifts_main {c : Cart} (hpaid : hasPaidItems c = true)
    (hS : calculateCartTotalExcludingFreeGifts c ≠ 0) :
    checkAndUpdateGifts c =
      handleGift c gift8000 (calculateCartTotalExcludingFreeGifts c) ++
        handleGift c gift5000 (calculateCartTotalExcludingFreeGifts c) := by
  have hne : c.items ≠ [] := by
    intro h
    rw [hasPaidItems, h] at hpaid
    simp at hpaid
  have hlen : c.items.length ≠ 0 := by simpa [List.length_eq_zero] using hne
  rw [checkAndUpdateGifts, if_neg (by simp [hlen, cartItemCount_ne_zero hne]),
    if_neg (by simp [hpaid])]
  simp [hS]

theorem handleGift_eq_nil_of_matched {c : Cart} {g : GiftConfig} {S : Nat}
    (h : isGiftInCart c g.variantId = decide (g.threshold ≤ S)) :
    handleGift c g S = [] := by
  rw [handleGift]
  match hd : decide (g.threshold ≤ S) with
  | true => simp [hd, h]
  | false => simp [hd, h]

theorem handleGift_eq_nil_iff {c : Cart} {g : GiftConfig} {S : Nat} :
    handleGift c g S = [] ↔ isGiftInCart c g.variantId = decide (g.threshold ≤ S) := by
  constructor
  · intro h
    by_contra hne
    rw [handleGift] at h
    match hd : decide (g.threshold ≤ S), hin : isGiftInCart c g.variantId with
    | true, true => exact hne (hin.trans hd.symm)
    | false, false => exact hne (hin.trans hd.symm)
    | true, false =>
      rw [hd, hin] at h
      simp [addGiftToCart] at h
    | false, true =>
      rw [hd, hin] at h
      simp at h
      exact removeGiftFromCart_ne_nil (isGiftInCart_iff.mp hin) h
  · exact handleGift_eq_nil_of_matched

theorem removeAllFreeGifts_eq_nil {c : Cart} (h : removeAllFreeGifts c = []) :
    ∀ i ∈ c.items, isFreeGiftItem i = false := by
  intro i hi
  by_contra hg
  simp only [Bool.not_eq_false] at hg
  have hmemf : i ∈ c.items.filter isFreeGiftItem := List.mem_filter.mpr ⟨hi, hg⟩
  have := (List.flatten_eq_nil_iff.mp h) (removeGiftFromCart c i.variant_id)
  exact removeGiftFromCart_ne_nil ⟨i, hi, rfl⟩
    (this (List.mem_map.mpr ⟨i, hmemf, rfl⟩))

/-! ### Closed form and shape of the milestone progress function -/

theorem updateMilestonesProgress_eq (t : Nat) :
    updateMilestonesProgress t =
      if 800000 ≤ t then 100
      else if 500000 ≤ t then 50 + ((t : ℚ) - 500000) / 6000
      else (t : ℚ) / 10000 := by
  rw [updateMilestonesProgress]
  by_cases h8 : 800000 ≤ t
  · simp [h8]
  · rw [if_neg h8, if_neg h8]
    have ht8 : (t : ℚ) < 800000 := by
      have : t < 800000 := by omega
      exact_mod_cast this
    by_cases h5 : 500000 ≤ t
    · rw [if_pos h5, if_pos h5]
      have hval : 50 + ((t : ℚ) - 500000) / 300000 * 50 = 50 + ((t : ℚ) - 500000) / 6000 := by
        ring
      have hno : ¬ (100 < 50 + ((t : ℚ) - 500000) / 300000 * 50) := by
        rw [hval]
        have : ((t : ℚ) - 500000) / 6000 < 50 := by linarith
        linarith
      simp only [hno, if_false]
      exact hval
    · rw [if_neg h5, if_neg h5]
      have ht5 : (t : ℚ) < 500000 := by
        have : t < 500000 := by omega
        exact_mod_cast this
      have hval : (t : ℚ) / 500000 * 50 = (t : ℚ) / 10000 := by ring
      have hno : ¬ (50 < (t : ℚ) / 500000 * 50) := by
        rw [hval]
        have : (t : ℚ) / 10000 < 50 := by linarith
        linarith
      simp only [hno, if_false]
      exact hval

theorem updateMilestonesProgress_bounds (t : Nat) :
    0 ≤ updateMilestonesProgress t ∧ updateMilestonesProgress t ≤ 100 := by
  rw [updateMilestonesProgress_eq]
  have h0 : (0 : ℚ) ≤ (t : ℚ) := by positivity
  by_cases h8 : 800000 ≤ t
  · simp [h8]
  · rw [if_neg h8]
    have ht8 : (t : ℚ) < 800000 := by
      have : t < 800000 := by omega
      exact_mod_cast this
    by_cases h5 : 500000 ≤ t
    · rw [if_pos h5]
      have ht5 : (500000 : ℚ) ≤ (t : ℚ) := by exact_mod_cast h5
      constructor <;> [linarith; linarith]
    · rw [if_neg h5]
      have ht5 : (t : ℚ) < 500000 := by
        have : t < 500000 := by omega
        exact_mod_cast this
      constructor <;> [positivity; linarith]

theorem updateMilestonesProgress_mono {t1 t2 : Nat} (h : t1 ≤ t2) :
    updateMilestonesProgress t1 ≤ updateMilestonesProgress t2 := by
  have hb1 := updateMilestonesProgress_bounds t1
  rw [updateMilestonesProgress_eq t1, updateMilestonesProgress_eq t2]
  rw [updateMilestonesProgress_eq t1] at hb1
  have hq : (t1 : ℚ) ≤ (t2 : ℚ) := by exact_mod_cast h
  by_cases h82 : 800000 ≤ t2
  · rw [if_pos h82]
    rcases hb1 with ⟨_, hb⟩
    exact hb
  · rw [if_neg h82]
    have h81 : ¬ 800000 ≤ t1 := by omega
    rw [if_neg h81] at hb1 ⊢
    by_cases h52 : 500000 ≤ t2
    · rw [if_pos h52]
      by_cases h51 : 500000 ≤ t1
      · rw [if_pos h51]
        linarith
      · rw [if_neg h51]
        have ht5 : (t1 : ℚ) < 500000 := by
          have : t1 < 500000 := by omega
          exact_mod_cast this
        have ht52 : (500000 : ℚ) ≤ (t2 : ℚ) := by exact_mod_cast h52
        have : (t1 : ℚ) / 10000 < 50 := by linarith
        linarith
    · rw [if_neg h52]
      have h51 : ¬ 500000 ≤ t1 := by omega
      rw [if_neg h51]
      linarith

theorem map_linePrice_split (l : List CartItem) :
    (l.map linePrice).sum =
      nonGiftSum l + ((l.filter isFreeGiftItem).map linePrice).sum := by
  induction l with
  | nil => simp [nonGiftSum]
  | cons i rest ih =>
    by_cases h : isFreeGiftItem i = true
    · simp [nonGiftSum, List.filter_cons, h, ih]
      omega
    · simp only [Bool.not_eq_true] at h
      simp [nonGiftSum, List.filter_cons, h, ih]
      omega

/-! ### Claim theorems: milestones, quantity lock, error handling, subtotal -/

/-- C4: the milestone progress percentage is a function of the qualifying
subtotal that is monotonically non-decreasing, clamped to the interval
[0, 100], and gives each of the two milestone bands an equal 50-point share
(progress is 50 at the first threshold and 100 at the second); each reached
flag is true exactly when the subtotal is at or above its milestone. -/
theorem C4_milestone_progress_shape :
    (∀ t1 t2 : Nat, t1 ≤ t2 → updateMilestonesProgress t1 ≤ updateMilestonesProgress t2)
  ∧ (∀ t : Nat, 0 ≤ updateMilestonesProgress t ∧ updateMilestonesProgress t ≤ 100)
  ∧ updateMilestonesProgress 500000 = 50
  ∧ updateMilestonesProgress 800000 = 100
  ∧ (∀ t : Nat, milestone5000Reached t = true ↔ 500000 ≤ t)
  ∧ (∀ t : Nat, milestone8000Reached t = true ↔ 800000 ≤ t) := by
  refine ⟨fun t1 t2 h => updateMilestonesProgress_mono h,
    updateMilestonesProgress_bounds, ?_, ?_, fun t => by simp [milestone5000Reached],
    fun t => by simp [milestone8000Reached]⟩
  · rw [updateMilestonesProgress_eq]
    norm_num
  · rw [updateMilestonesProgress_eq]
    norm_num

/-- Witness for C4 at concrete subtotals. -/
theorem C4_milestone_progress_shape_witness :
    updateMilestonesProgress 3 ≤ updateMilestonesProgress 7
  ∧ 0 ≤ updateMilestonesProgress 3 :=
  ⟨C4_milestone_progress_shape.1 3 7 (by norm_num),
    (C4_milestone_progress_shape.2.1 3).1⟩

/-- C8: while the in-flight processing flag is set, any further invocation of
the gift check returns immediately — no cart fetch, no mutation, the flag left
set; the concurrent trigger is dropped, with no queued work recorded. -/
theorem C8_inflight_invocations_dropped (fetchResult : Option Cart) :
    checkAndUpdateGiftsEntry true fetchResult = ⟨0, [], true⟩ :=
  rfl

/-- C3 counterexample: a quantity-change notification to quantity 0 on a known
gift line is a requested quantity other than 1, yet it is not vetoed: the
falsy-quantity guard of `handleQuantityUpdate` returns before the gift check
and no corrective change is issued. -/
theorem C3_quantity_zero_not_vetoed :
    isFreeGiftItem gift5000Line = true
  ∧ (Cart.mk 100000 1 [gift5000Line]).items.get? 0 = some gift5000Line
  ∧ (0 : Nat) ≠ 1
  ∧ handleQuantityUpdate (some (Cart.mk 100000 1 [gift5000Line])) 1 0 = ⟨false, []⟩ := by
  decide

/-- C3 amended: on a quantity-change notification whose line resolves to a
known gift variant, any requested quantity other than 0 and 1 is vetoed and
the line is forced back to quantity 1 via the change endpoint (a requested
quantity of 0 falls through the falsy-value guard untouched). -/
theorem C3_gift_quantity_lock (cart : Cart) (cartLine quantity : Nat) (item : CartItem)
    (hline : cartLine ≠ 0) (hq0 : quantity ≠ 0) (hq1 : quantity ≠ 1)
    (hitem : cart.items.get? (cartLine - 1) = some item)
    (hgift : isFreeGiftItem item = true) :
    handleQuantityUpdate (some cart) cartLine quantity =
      ⟨true, [CartAction.change cartLine 1]⟩ := by
  have h1 : (cartLine == 0 || quantity == 0) = false := by simp [hline, hq0]
  have h2 : (isFreeGiftItem item && quantity != 1) = true := by simp [hgift, hq1]
  simp only [handleQuantityUpdate, h1, Bool.false_eq_true, if_false, hitem, h2, if_true]

/-- Witness for C3 amended: quantity 3 on a gift line is vetoed and reset. -/
theorem C3_gift_quantity_lock_witness :
    handleQuantityUpdate (some (Cart.mk 100000 1 [gift5000Line])) 1 3 =
      ⟨true, [CartAction.change 1 1]⟩ :=
  C3_gift_quantity_lock _ 1 3 gift5000Line (by decide) (by decide) (by decide) rfl
    (by decide)

/-- C9 counterexample: a non-2xx `/cart/add.js` response whose JSON body
carries no `status` field is an error response by the error taxonomy of the
spec, yet the gift add dispatches its cart-add event and logs nothing — the
HTTP status of the mutation response is never consulted. -/
theorem C9_non2xx_add_dispatches_event :
    addGiftToCartRun (HttpOutcome.response false (some ⟨none⟩)) = ⟨true, false⟩ := by
  decide

/-- C9 amended: every network failure, malformed JSON body, and error-payload
response in a cart fetch, gift add, or gift remove is caught at its call site
and logged, no cart event is dispatched for the failed mutation, a failed cart
fetch returns null, and a gift-check entry whose fetch returned null issues no
mutation.  Platform rejection of a mutation is detected only through the
payload field (`status` for add, `errors` for change), not the HTTP status. -/
theorem C9_errors_are_caught_noop (co : HttpOutcome Cart)
    (ao : HttpOutcome AddResponseBody) (ro : HttpOutcome ChangeResponseBody)
    (hc : ∀ c : Cart, co ≠ HttpOutcome.response true (some c))
    (ha : ao = HttpOutcome.networkFailure ∨ (∃ ok, ao = HttpOutcome.response ok none) ∨
      ∃ ok d, ao = HttpOutcome.response ok (some d) ∧ dataStatusTruthy d = true)
    (hr : ro = HttpOutcome.networkFailure ∨ (∃ ok, ro = HttpOutcome.response ok none) ∨
      ∃ ok d, ro = HttpOutcome.response ok (some d) ∧ d.errors = true) :
    fetchCart co = none
  ∧ addGiftToCartRun ao = ⟨false, true⟩
  ∧ removeGiftFromCartRun ro = ⟨false, true⟩
  ∧ checkAndUpdateGiftsEntry false none = ⟨1, [], false⟩ := by
  refine ⟨?_, ?_, ?_, rfl⟩
  · cases co with
    | networkFailure => rfl
    | response ok body =>
      cases ok
      · rfl
      · cases body with
        | none => rfl
        | some c => exact absurd rfl (hc c)
  · rcases ha with rfl | ⟨ok, rfl⟩ | ⟨ok, d, rfl, hd⟩
    · rfl
    · rfl
    · simp [addGiftToCartRun, hd]
  · rcases hr with rfl | ⟨ok, rfl⟩ | ⟨ok, d, rfl, hd⟩
    · rfl
    · rfl
    · simp [removeGiftFromCartRun, hd]

/-- Witness for C9 amended at concrete failing outcomes. -/
theorem C9_errors_are_caught_noop_witness :
    fetchCart (HttpOutcome.response false (some (Cart.mk 0 0 [])))  = none
  ∧ addGiftToCartRun HttpOutcome.networkFailure = ⟨false, true⟩
  ∧ removeGiftFromCartRun (HttpOutcome.response true (some ⟨true⟩)) = ⟨false, true⟩
  ∧ checkAndUpdateGiftsEntry false none = ⟨1, [], false⟩ :=
  C9_errors_are_caught_noop _ _ _ (fun c h => by cases h) (Or.inl rfl)
    (Or.inr (Or.inr ⟨true, ⟨true⟩, rfl, rfl⟩))

/-- C2 counterexample: on a cart holding a paid line of 400000 and a gift line
priced 100000 (total 500000), version A of the reconciler compares its
thresholds against the raw total 500000, not against the 400000 that remains
after subtracting gift line prices; behaviorally, version A keeps the gift
while version B removes it. -/
theorem C2_versionA_subtotal_includes_gifts :
    qualifyingSubtotalA (Cart.mk 500000 2 [paidItem 400000, gift5000Line]) = 500000
  ∧ specQualifyingSubtotal (Cart.mk 500000 2 [paidItem 400000, gift5000Line]) = 400000
  ∧ calculateCartTotalExcludingFreeGifts
      (Cart.mk 500000 2 [paidItem 400000, gift5000Line]) = 400000
  ∧ qualifyingSubtotalA (Cart.mk 500000 2 [paidItem 400000, gift5000Line]) ≠
      specQualifyingSubtotal (Cart.mk 500000 2 [paidItem 400000, gift5000Line])
  ∧ checkAndUpdateGiftsA (Cart.mk 500000 2 [paidItem 400000, gift5000Line]) = []
  ∧ checkAndUpdateGifts (Cart.mk 500000 2 [paidItem 400000, gift5000Line]) =
      [CartAction.change 2 0] := by
  decide

/-- C2 amended: in the reconciler versions that use
`calculateCartTotalExcludingFreeGifts` (version B and `part_001`), the
qualifying subtotal is the sum of line prices of the non-gift items, which
equals the cart total minus the price of gift line items whenever the
snapshot total is the sum of its line prices; version A and `part_000`
instead use the raw `total_price`, which includes gift line prices. -/
theorem C2_qualifying_subtotal_excludes_gifts (c : Cart)
    (htotal : c.total_price = (c.items.map linePrice).sum) :
    calculateCartTotalExcludingFreeGifts c = specQualifyingSubtotal c := by
  rw [calculate_eq_nonGiftSum, specQualifyingSubtotal, htotal, map_linePrice_split]
  omega

/-- Witness for C2 amended on a concrete consistent cart. -/
theorem C2_qualifying_subtotal_excludes_gifts_witness :
    calculateCartTotalExcludingFreeGifts (Cart.mk 500000 2 [paidItem 400000, gift5000Line]) =
      specQualifyingSubtotal (Cart.mk 500000 2 [paidItem 400000, gift5000Line]) :=
  C2_qualifying_subtotal_excludes_gifts _ (by decide)

/-- C7: the worked example of the spec over the configured thresholds.  An
empty cart gets no gift mutations and 0% progress; a qualifying subtotal of
599900 paisa crosses exactly the 500000 threshold, so exactly the 5000 gift
is added (present once after the pass, the 8000 gift absent) and the first
milestone band is at its full share; a subtotal of 900000, above the highest
threshold, leaves both configured gifts present simultaneously. -/
theorem C7_worked_examples :
    checkAndUpdateGifts (Cart.mk 0 0 []) = []
  ∧ updateMilestonesProgress 0 = 0
  ∧ checkAndUpdateGifts (Cart.mk 599900 1 [paidItem 599900]) =
      [CartAction.add gift5000.variantId 1]
  ∧ ((runPass (fun _ => 0) (Cart.mk 599900 1 [paidItem 599900])).filter
      (fun i => i.variant_id == gift5000.variantId)).length = 1
  ∧ (runPass (fun _ => 0) (Cart.mk 599900 1 [paidItem 599900])).any
      (fun i => i.variant_id == gift8000.variantId) = false
  ∧ milestone5000Reached 599900 = true
  ∧ milestone8000Reached 599900 = false
  ∧ min (updateMilestonesProgress 599900) 50 = 50
  ∧ (runPass (fun _ => 0) (Cart.mk 900000 1 [paidItem 900000])).any
      (fun i => i.variant_id == gift5000.variantId) = true
  ∧ (runPass (fun _ => 0) (Cart.mk 900000 1 [paidItem 900000])).any
      (fun i => i.variant_id == gift8000.variantId) = true := by
  refine ⟨by decide, ?_, by decide, by decide, by decide, by decide, by decide, ?_,
    by decide, by decide⟩
  · rw [updateMilestonesProgress_eq]
    norm_num
  · rw [updateMilestonesProgress_eq]
    norm_num [min_def]

/-! ### Projections of the gift configuration -/

@[simp] theorem gift5000_variantId : gift5000.variantId = 55378709479497 := rfl

@[simp] theorem gift5000_threshold : gift5000.threshold = 500000 := rfl

@[simp] theorem gift8000_variantId : gift8000.variantId = 55378884591689 := rfl

@[simp] theorem gift8000_threshold : gift8000.threshold = 800000 := rfl

theorem gift_ids_ne : gift5000.variantId ≠ gift8000.variantId := by decide

/-! ### Structure of carts holding at most one gift line -/

theorem gift_cases {l : List CartItem} (hgift : (l.filter isFreeGiftItem).length ≤ 1) :
    (∀ i ∈ l, isFreeGiftItem i = false) ∨
    ∃ pre g post, l = pre ++ g :: post ∧ isFreeGiftItem g = true ∧
      (∀ i ∈ pre, isFreeGiftItem i = false) ∧ (∀ i ∈ post, isFreeGiftItem i = false) := by
  induction l with
  | nil => exact Or.inl (by simp)
  | cons a rest ih =>
    by_cases ha : isFreeGiftItem a = true
    · right
      have hrest : rest.filter isFreeGiftItem = [] := by
        rw [List.filter_cons, if_pos ha] at hgift
        simp only [List.length_cons] at hgift
        exact List.length_eq_zero.mp (by omega)
      refine ⟨[], a, rest, by simp, ha, by simp, ?_⟩
      intro i hi
      by_contra hg
      simp only [Bool.not_eq_false] at hg
      have : i ∈ rest.filter isFreeGiftItem := List.mem_filter.mpr ⟨hi, hg⟩
      simp [hrest] at this
    · simp only [Bool.not_eq_true] at ha
      have hgift2 : (rest.filter isFreeGiftItem).length ≤ 1 := by
        rwa [List.filter_cons, if_neg (by simp [ha])] at hgift
      rcases ih hgift2 with hall | ⟨pre, g, post, heq, hg, hpre, hpost⟩
      · left
        intro i hi
        rcases List.mem_cons.mp hi with rfl | hi
        · exact ha
        · exact hall i hi
      · right
        refine ⟨a :: pre, g, post, by simp [heq], hg, ?_, hpost⟩
        intro i hi
        rcases List.mem_cons.mp hi with rfl | hi
        · exact ha
        · exact hpre i hi

theorem any_variant_eq_false {l : List CartItem} {w : Nat}
    (hall : ∀ i ∈ l, isFreeGiftItem i = false)
    (hw : w = gift5000.variantId ∨ w = gift8000.variantId) :
    l.any (fun i => i.variant_id == w) = false := by
  rw [List.any_eq_false]
  intro i hi
  simp only [beq_iff_eq]
  intro hveq
  have hgift := isFreeGiftItem_of_variant hw hveq
  rw [hall i hi] at hgift
  exact Bool.false_ne_true hgift

theorem one_gift_presence {pre post : List CartItem} (g : CartItem) {w : Nat}
    (hw : w = gift5000.variantId ∨ w = gift8000.variantId)
    (hpre : ∀ i ∈ pre, isFreeGiftItem i = false)
    (hpost : ∀ i ∈ post, isFreeGiftItem i = false) :
    (pre ++ g :: post).any (fun i => i.variant_id == w) = (g.variant_id == w) := by
  rw [List.any_append, List.any_cons, any_variant_eq_false hpre hw,
    any_variant_eq_false hpost hw]
  simp

theorem filter_one_gift {pre post : List CartItem} {g : CartItem}
    (hgg : isFreeGiftItem g = true)
    (hpre : ∀ i ∈ pre, isFreeGiftItem i = false)
    (hpost : ∀ i ∈ post, isFreeGiftItem i = false) :
    (pre ++ g :: post).filter isFreeGiftItem = [g] := by
  rw [List.filter_append, List.filter_cons, if_pos hgg,
    List.filter_eq_nil_iff.mpr (fun i hi => by simp [hpre i hi]),
    List.filter_eq_nil_iff.mpr (fun i hi => by simp [hpost i hi])]
  rfl

theorem nonGiftSum_one_gift {pre post : List CartItem} {g : CartItem}
    (hgg : isFreeGiftItem g = true) :
    nonGiftSum (pre ++ g :: post) = nonGiftSum (pre ++ post) := by
  rw [nonGiftSum_append, nonGiftSum_append, nonGiftSum_cons_gift hgg]

/-! ### The effect of issued mutations on the platform state -/

theorem eraseIdx_append_cons (pre : List CartItem) (g : CartItem) (post : List CartItem) :
    (pre ++ g :: post).eraseIdx pre.length = pre ++ post := by
  induction pre with
  | nil => simp
  | cons a rest ih => simp [List.eraseIdx_cons_succ, ih]

theorem get?_append_cons (pre : List CartItem) (g : CartItem) (post : List CartItem) :
    (pre ++ g :: post).get? pre.length = some g := by
  induction pre with
  | nil => rfl
  | cons a rest ih => simpa [List.get?_cons_succ] using ih

theorem findVariantIdx_append_cons {pre : List CartItem} {v : Nat} (g : CartItem)
    (post : List CartItem) (hpre : ∀ i ∈ pre, i.variant_id ≠ v) (hg : g.variant_id = v) :
    findVariantIdx (pre ++ g :: post) v = some pre.length := by
  induction pre with
  | nil => simp [findVariantIdx, hg]
  | cons a rest ih =>
    have ha : (a.variant_id == v) = false := by simp [hpre a (by simp)]
    rw [List.cons_append, findVariantIdx, if_neg (by simp [ha])]
    rw [ih (fun i hi => hpre i (by simp [hi]))]
    rfl

theorem applyChange_remove (pre : List CartItem) (g : CartItem) (post : List CartItem) :
    applyChange (pre ++ g :: post) (pre.length + 1) 0 = pre ++ post := by
  rw [applyChange, if_neg, if_pos rfl]
  · simpa using eraseIdx_append_cons pre g post
  · push_neg
    refine ⟨by omega, ?_⟩
    simp [List.length_append]

theorem one_gift_facts {c : Cart} {pre post : List CartItem} {g : CartItem}
    (heq : c.items = pre ++ g :: post)
    (hgg : isFreeGiftItem g = true)
    (hpre : ∀ i ∈ pre, isFreeGiftItem i = false)
    (_hpost : ∀ i ∈ post, isFreeGiftItem i = false)
    (hline : ∀ i ∈ c.items, i.line = 0) :
    removeGiftFromCart c g.variant_id = [CartAction.change (pre.length + 1) 0]
  ∧ applyChange c.items (pre.length + 1) 0 = pre ++ post := by
  have hprev : ∀ i ∈ pre, i.variant_id ≠ g.variant_id := by
    intro i hi hv
    have hgift := isFreeGiftItem_of_variant (isFreeGiftItem_iff.mp hgg) hv
    rw [hpre i hi] at hgift
    exact Bool.false_ne_true hgift
  constructor
  · rw [removeGiftFromCart, heq, findVariantIdx_append_cons g post hprev rfl]
    have hgl : g.line = 0 := hline g (by rw [heq]; simp)
    dsimp only
    rw [get?_append_cons]
    simp [hgl]
  · rw [heq]
    exact applyChange_remove pre g post

theorem nonGiftSum_applyAdd (priceOf : Nat → Nat) (l : List CartItem) {v : Nat} (q : Nat)
    (hv : v = gift5000.variantId ∨ v = gift8000.variantId) :
    nonGiftSum (applyAdd priceOf l v q) = nonGiftSum l := by
  rw [applyAdd]
  exact nonGiftSum_cons_gift (isFreeGiftItem_of_variant hv rfl) l

theorem any_variant_applyAdd (priceOf : Nat → Nat) (l : List CartItem) (v q w : Nat) :
    (applyAdd priceOf l v q).any (fun i => i.variant_id == w) =
      (v == w || l.any (fun i => i.variant_id == w)) := by
  simp [applyAdd]

/-! ### Small facts about `handleGift` -/

theorem handleGift_add {c : Cart} {g : GiftConfig} {S : Nat}
    (hin : isGiftInCart c g.variantId = false) (hS : g.threshold ≤ S) :
    handleGift c g S = [CartAction.add g.variantId 1] := by
  rw [handleGift]
  simp [hin, hS, addGiftToCart]

theorem handleGift_remove {c : Cart} {g : GiftConfig} {S : Nat}
    (hin : isGiftInCart c g.variantId = true) (hS : S < g.threshold) :
    handleGift c g S = removeGiftFromCart c g.variantId := by
  rw [handleGift]
  have hd : decide (g.threshold ≤ S) = false := by
    rw [decide_eq_false_iff_not]
    omega
  simp [hd, hin]

/-! ### Branch lemmas of the reconciliation pass -/

theorem checkAndUpdateGifts_eq_removeAll {c : Cart}
    (h : hasPaidItems c = false ∨ calculateCartTotalExcludingFreeGifts c = 0) :
    checkAndUpdateGifts c = removeAllFreeGifts c := by
  rw [checkAndUpdateGifts]
  by_cases hempty : (c.items.length == 0 || cartItemCount c == 0) = true
  · rw [if_pos hempty]
  · rw [if_neg hempty]
    rcases h with h | h
    · rw [if_pos (by simp [h])]
    · by_cases hpaid : hasPaidItems c = true
      · rw [if_neg (by simp [hpaid])]
        simp [h]
      · simp only [Bool.not_eq_true] at hpaid
        rw [if_pos (by simp [hpaid])]

theorem all_gift_of_not_hasPaid {c : Cart} (h : hasPaidItems c = false) :
    ∀ i ∈ c.items, isFreeGiftItem i = true := by
  rw [hasPaidItems, List.any_eq_false] at h
  intro i hi
  simpa using h i hi

theorem isGiftInCart_iff_filter_pos {c : Cart} {v : Nat} :
    isGiftInCart c v = true ↔
      0 < (c.items.filter (fun i => i.variant_id == v)).length := by
  rw [isGiftInCart_iff]
  constructor
  · rintro ⟨i, hi, hv⟩
    have hmem : i ∈ c.items.filter (fun i => i.variant_id == v) :=
      List.mem_filter.mpr ⟨hi, by simp [hv]⟩
    rw [List.length_pos]
    intro hnil
    rw [hnil] at hmem
    simp at hmem
  · intro hpos
    obtain ⟨i, hi⟩ := List.exists_mem_of_ne_nil _ (List.length_pos.mp hpos)
    have hm := List.mem_filter.mp hi
    exact ⟨i, hm.1, by simpa using hm.2⟩

theorem filter_variant_nil_of_absent {c : Cart} {v : Nat}
    (h : isGiftInCart c v = false) :
    c.items.filter (fun i => i.variant_id == v) = [] := by
  rw [List.filter_eq_nil_iff]
  intro i hi hbeq
  have : isGiftInCart c v = true := isGiftInCart_iff.mpr ⟨i, hi, by simpa using hbeq⟩
  rw [h] at this
  exact Bool.false_ne_true this

theorem change_mem_removeAll {c : Cart} {v : Nat}
    (hline : ∀ i ∈ c.items, i.line = 0)
    (hv : v = gift5000.variantId ∨ v = gift8000.variantId)
    (hp : ∃ i ∈ c.items, i.variant_id = v) :
    ∃ idx item, c.items.get? idx = some item ∧ item.variant_id = v ∧
      CartAction.change (idx + 1) 0 ∈ removeAllFreeGifts c := by
  obtain ⟨i0, hi0, hv0⟩ := hp
  obtain ⟨idx, item, hget, hvar, heq⟩ := removeGiftFromCart_spec hline ⟨i0, hi0, hv0⟩
  refine ⟨idx, item, hget, hvar, ?_⟩
  rw [removeAllFreeGifts, List.mem_flatten]
  refine ⟨removeGiftFromCart c v, ?_, by simp [heq]⟩
  refine List.mem_map.mpr
    ⟨i0, List.mem_filter.mpr ⟨hi0, isFreeGiftItem_of_variant hv hv0⟩, ?_⟩
  rw [hv0]

theorem subtotal_threshold_paid {c : Cart} {g : GiftConfig}
    (hg : g = gift5000 ∨ g = gift8000)
    (hS : g.threshold ≤ calculateCartTotalExcludingFreeGifts c) :
    hasPaidItems c = true ∧ calculateCartTotalExcludingFreeGifts c ≠ 0 := by
  have hpos : 0 < g.threshold := by
    rcases hg with rfl | rfl <;> simp
  have hSne : calculateCartTotalExcludingFreeGifts c ≠ 0 := by omega
  refine ⟨?_, hSne⟩
  rw [calculate_eq_nonGiftSum] at hSne
  rw [hasPaidItems]
  exact hasPaid_of_nonGiftSum_ne hSne

theorem add_issued {c : Cart} {g : GiftConfig} (hg : g = gift5000 ∨ g = gift8000)
    (hS : g.threshold ≤ calculateCartTotalExcludingFreeGifts c)
    (habs : isGiftInCart c g.variantId = false) :
    CartAction.add g.variantId 1 ∈ checkAndUpdateGifts c := by
  obtain ⟨hpaid, hSne⟩ := subtotal_threshold_paid hg hS
  rw [checkAndUpdateGifts_main hpaid hSne]
  have hact := handleGift_add habs hS
  rcases hg with rfl | rfl
  · exact List.mem_append.mpr (Or.inr (by simp [hact]))
  · exact List.mem_append.mpr (Or.inl (by simp [hact]))

theorem removal_issued {c : Cart} {g : GiftConfig} (hg : g = gift5000 ∨ g = gift8000)
    (hline : ∀ i ∈ c.items, i.line = 0)
    (hS : calculateCartTotalExcludingFreeGifts c < g.threshold)
    (hp : isGiftInCart c g.variantId = true) :
    ∃ idx item, c.items.get? idx = some item ∧ item.variant_id = g.variantId ∧
      CartAction.change (idx + 1) 0 ∈ checkAndUpdateGifts c := by
  have hvid : g.variantId = gift5000.variantId ∨ g.variantId = gift8000.variantId := by
    rcases hg with rfl | rfl
    · exact Or.inl rfl
    · exact Or.inr rfl
  have hex := isGiftInCart_iff.mp hp
  by_cases hpaid : hasPaidItems c = true
  · by_cases hS0 : calculateCartTotalExcludingFreeGifts c = 0
    · obtain ⟨idx, item, hget, hvar, hmem⟩ := change_mem_removeAll hline hvid hex
      exact ⟨idx, item, hget, hvar, by
        rw [checkAndUpdateGifts_eq_removeAll (Or.inr hS0)]
        exact hmem⟩
    · obtain ⟨idx, item, hget, hvar, heq⟩ := removeGiftFromCart_spec hline hex
      refine ⟨idx, item, hget, hvar, ?_⟩
      rw [checkAndUpdateGifts_main hpaid hS0]
      have hhg := handleGift_remove hp hS
      rcases hg with rfl | rfl
      · exact List.mem_append.mpr (Or.inr (by rw [hhg, heq]; simp))
      · exact List.mem_append.mpr (Or.inl (by rw [hhg, heq]; simp))
  · simp only [Bool.not_eq_true] at hpaid
    obtain ⟨idx, item, hget, hvar, hmem⟩ := change_mem_removeAll hline hvid hex
    exact ⟨idx, item, hget, hvar, by
      rw [checkAndUpdateGifts_eq_removeAll (Or.inl hpaid)]
      exact hmem⟩

theorem fixedpoint_gift_count {c : Cart} {g : GiftConfig}
    (hg : g = gift5000 ∨ g = gift8000)
    (hdup : (c.items.filter (fun i => i.variant_id == g.variantId)).length ≤ 1)
    (hfix : checkAndUpdateGifts c = []) :
    (g.threshold ≤ calculateCartTotalExcludingFreeGifts c →
      (c.items.filter (fun i => i.variant_id == g.variantId)).length = 1)
  ∧ (calculateCartTotalExcludingFreeGifts c < g.threshold →
      (c.items.filter (fun i => i.variant_id == g.variantId)).length = 0) := by
  have hvid : g.variantId = gift5000.variantId ∨ g.variantId = gift8000.variantId := by
    rcases hg with rfl | rfl
    · exact Or.inl rfl
    · exact Or.inr rfl
  have hthr : 0 < g.threshold := by
    rcases hg with rfl | rfl <;> simp
  by_cases hempty : c.items = []
  · constructor
    · intro hS
      rw [calculate_eq_nonGiftSum, hempty] at hS
      simp [nonGiftSum] at hS
      omega
    · intro _
      simp [hempty]
  · by_cases hpaid : hasPaidItems c = true
    · by_cases hS0 : calculateCartTotalExcludingFreeGifts c = 0
      · rw [checkAndUpdateGifts_eq_removeAll (Or.inr hS0)] at hfix
        have hnogift := removeAllFreeGifts_eq_nil hfix
        have hcount : (c.items.filter (fun i => i.variant_id == g.variantId)).length = 0 := by
          rw [List.length_eq_zero, List.filter_eq_nil_iff]
          intro i hi hbeq
          have hgift := isFreeGiftItem_of_variant hvid (by simpa using hbeq)
          rw [hnogift i hi] at hgift
          exact Bool.false_ne_true hgift
        exact ⟨fun hS => by omega, fun _ => hcount⟩
      · rw [checkAndUpdateGifts_main hpaid hS0] at hfix
        obtain ⟨hfix8, hfix5⟩ := List.append_eq_nil.mp hfix
        have hmatch : isGiftInCart c g.variantId =
            decide (g.threshold ≤ calculateCartTotalExcludingFreeGifts c) := by
          rcases hg with rfl | rfl
          · exact handleGift_eq_nil_iff.mp hfix5
          · exact handleGift_eq_nil_iff.mp hfix8
        constructor
        · intro hS
          have hin : isGiftInCart c g.variantId = true := by
            rw [hmatch]
            simpa using hS
          have hpos := isGiftInCart_iff_filter_pos.mp hin
          omega
        · intro hS
          have hout : isGiftInCart c g.variantId = false := by
            rw [hmatch, decide_eq_false_iff_not]
            omega
          rw [filter_variant_nil_of_absent hout]
          rfl
    · simp only [Bool.not_eq_true] at hpaid
      rw [checkAndUpdateGifts_eq_removeAll (Or.inl hpaid)] at hfix
      have hnogift := removeAllFreeGifts_eq_nil hfix
      have hallgift := all_gift_of_not_hasPaid hpaid
      obtain ⟨i, hi⟩ := List.exists_mem_of_ne_nil _ hempty
      have h1 := hallgift i hi
      rw [hnogift i hi] at h1
      exact absurd h1 (by simp)

/-- C1: on a snapshot whose line numbers come from the platform (no `line`
field) and with at most one line per that gift variant, the reconciliation
pass adds quantity 1 of a configured gift whose threshold is reached by the
qualifying subtotal while the variant is absent, and issues a quantity-0
change for the line of a configured gift whose threshold is not reached while
the variant is present; and in any converged state (a snapshot on which the
pass issues no mutation) the gift variant occurs exactly once when the
subtotal reaches its threshold and not at all when it does not. -/
theorem C1_gift_threshold_reconciliation (c : Cart) (g : GiftConfig)
    (hg : g = gift5000 ∨ g = gift8000)
    (hline : ∀ i ∈ c.items, i.line = 0)
    (hdup : (c.items.filter (fun i => i.variant_id == g.variantId)).length ≤ 1) :
    (g.threshold ≤ calculateCartTotalExcludingFreeGifts c →
      isGiftInCart c g.variantId = false →
      CartAction.add g.variantId 1 ∈ checkAndUpdateGifts c)
  ∧ (calculateCartTotalExcludingFreeGifts c < g.threshold →
      isGiftInCart c g.variantId = true →
      ∃ idx item, c.items.get? idx = some item ∧ item.variant_id = g.variantId ∧
        CartAction.change (idx + 1) 0 ∈ checkAndUpdateGifts c)
  ∧ (checkAndUpdateGifts c = [] →
      (g.threshold ≤ calculateCartTotalExcludingFreeGifts c →
        (c.items.filter (fun i => i.variant_id == g.variantId)).length = 1)
    ∧ (calculateCartTotalExcludingFreeGifts c < g.threshold →
        (c.items.filter (fun i => i.variant_id == g.variantId)).length = 0)) :=
  ⟨fun hS habs => add_issued hg hS habs,
   fun hS hp => removal_issued hg hline hS hp,
   fun hfix => fixedpoint_gift_count hg hdup hfix⟩

/-- Witness for C1: a subtotal of 599900 with the 5000 gift absent issues its
add. -/
theorem C1_gift_threshold_reconciliation_witness :
    CartAction.add gift5000.variantId 1 ∈
      checkAndUpdateGifts (Cart.mk 599900 1 [paidItem 599900]) :=
  (C1_gift_threshold_reconciliation (Cart.mk 599900 1 [paidItem 599900]) gift5000
    (Or.inl rfl) (by decide) (by decide)).1 (by decide) (by decide)

/-- C5: evaluation at the failing input.  A cart whose only lines are the two
gift variants has no paid item, so the pass takes the remove-all branch; the
branch issues quantity-0 changes for lines 1 and 2, both computed from the
pre-pass snapshot, but after the first deletion the cart holds one line, so
the second change targets a nonexistent line, is rejected by the platform,
and the 5000 gift variant survives the pass. -/
theorem C5_removeAll_leaves_second_gift :
    hasPaidItems (Cart.mk 900000 2 [gift8000Line, gift5000Line]) = false
  ∧ checkAndUpdateGifts (Cart.mk 900000 2 [gift8000Line, gift5000Line]) =
      [CartAction.change 1 0, CartAction.change 2 0]
  ∧ runPass (fun _ => 0) (Cart.mk 900000 2 [gift8000Line, gift5000Line]) = [gift5000Line]
  ∧ (runPass (fun _ => 0) (Cart.mk 900000 2 [gift8000Line, gift5000Line])).any
      isFreeGiftItem = true := by
  decide

/-- C10 counterexample: a manually added, full-price line of the 8000 gift
variant carries no marker property yet is treated as a gift; still, a
requested quantity of 0 on it is not vetoed, so such a line is not fully
quantity-locked to 1 as the claim states. -/
theorem C10_manual_gift_quantity_zero_not_locked :
    manualGift8000Line.auto_gift = false
  ∧ isFreeGiftItem manualGift8000Line = true
  ∧ (Cart.mk 550000 2 [paidItem 400000, manualGift8000Line]).items.get? 1 =
      some manualGift8000Line
  ∧ (0 : Nat) ≠ 1
  ∧ handleQuantityUpdate
      (some (Cart.mk 550000 2 [paidItem 400000, manualGift8000Line])) 2 0 =
      ⟨false, []⟩ := by
  decide

/-- C10 amended: gift identification at the public interface is by variant id
alone, not by the `_auto_gift` marker: the gift test is unchanged under any
value of the marker; a line carrying a configured gift variant id — including
a line the customer added manually at full price — is excluded from the
qualifying subtotal, has quantity changes to values other than 0 and 1 vetoed
and forced back to 1, and has a quantity-0 removal issued for its variant by
the pass whenever the qualifying subtotal is below that variant threshold.
(A requested quantity of 0 slips through the falsy-value guard.) -/
theorem C10_gift_identity_by_variant_id (item : CartItem) (c : Cart) (v : Nat)
    (hv : v = gift5000.variantId ∨ v = gift8000.variantId)
    (hvar : item.variant_id = v) :
    (∀ b : Bool, isFreeGiftItem { item with auto_gift := b } = isFreeGiftItem item)
  ∧ (∀ tp ic : Nat, ∀ pre post : List CartItem,
      calculateCartTotalExcludingFreeGifts (Cart.mk tp ic (pre ++ item :: post)) =
        calculateCartTotalExcludingFreeGifts (Cart.mk tp ic (pre ++ post)))
  ∧ (∀ cartLine quantity : Nat, cartLine ≠ 0 → quantity ≠ 0 → quantity ≠ 1 →
      c.items.get? (cartLine - 1) = some item →
      handleQuantityUpdate (some c) cartLine quantity =
        ⟨true, [CartAction.change cartLine 1]⟩)
  ∧ (∀ g : GiftConfig, (g = gift5000 ∨ g = gift8000) → g.variantId = v →
      (∀ i ∈ c.items, i.line = 0) → item ∈ c.items →
      calculateCartTotalExcludingFreeGifts c < g.threshold →
      ∃ idx it, c.items.get? idx = some it ∧ it.variant_id = g.variantId ∧
        CartAction.change (idx + 1) 0 ∈ checkAndUpdateGifts c) := by
  have hgift : isFreeGiftItem item = true := isFreeGiftItem_of_variant hv hvar
  refine ⟨fun b => rfl, ?_, ?_, ?_⟩
  · intro tp ic pre post
    rw [calculate_eq_nonGiftSum, calculate_eq_nonGiftSum]
    exact nonGiftSum_one_gift hgift
  · intro cartLine quantity hl hq0 hq1 hget
    have h1 : (cartLine == 0 || quantity == 0) = false := by simp [hl, hq0]
    have h2 : (isFreeGiftItem item && quantity != 1) = true := by simp [hgift, hq1]
    simp only [handleQuantityUpdate, h1, Bool.false_eq_true, if_false, hget, h2, if_true]
  · intro g hg hgv hline hmem hS
    exact removal_issued hg hline hS (isGiftInCart_iff.mpr ⟨item, hmem, by rw [hvar, hgv]⟩)

/-- Witness for C10 amended: the manually added 8000-variant line is removed
by the pass once the subtotal (400000) is below its threshold. -/
theorem C10_gift_identity_by_variant_id_witness :
    ∃ idx it,
      (Cart.mk 550000 2 [paidItem 400000, manualGift8000Line]).items.get? idx = some it ∧
      it.variant_id = gift8000.variantId ∧
      CartAction.change (idx + 1) 0 ∈
        checkAndUpdateGifts (Cart.mk 550000 2 [paidItem 400000, manualGift8000Line]) :=
  (C10_gift_identity_by_variant_id manualGift8000Line
    (Cart.mk 550000 2 [paidItem 400000, manualGift8000Line]) gift8000.variantId
    (Or.inr rfl) rfl).2.2.2 gift8000 (Or.inr rfl) rfl (by decide) (by decide) (by decide)

theorem handleGift_nil_absent_below {c : Cart} {g : GiftConfig} {S : Nat}
    (hin : isGiftInCart c g.variantId = false) (hS : S < g.threshold) :
    handleGift c g S = [] :=
  handleGift_eq_nil_of_matched (by rw [hin]; symm; rw [decide_eq_false_iff_not]; omega)

theorem handleGift_nil_present_above {c : Cart} {g : GiftConfig} {S : Nat}
    (hin : isGiftInCart c g.variantId = true) (hS : g.threshold ≤ S) :
    handleGift c g S = [] :=
  handleGift_eq_nil_of_matched (by rw [hin]; symm; simp [hS])

theorem pass_nil_of_consistent (l : List CartItem)
    (h8 : l.any (fun i => i.variant_id == gift8000.variantId) =
      decide (800000 ≤ nonGiftSum l))
    (h5 : l.any (fun i => i.variant_id == gift5000.variantId) =
      decide (500000 ≤ nonGiftSum l)) :
    checkAndUpdateGifts (refetchCart l) = [] := by
  by_cases hl : l = []
  · subst hl
    decide
  · by_cases hS0 : nonGiftSum l = 0
    · have hnog : ∀ i ∈ l, isFreeGiftItem i = false := by
        intro i hi
        have e8 := List.any_eq_false.mp
          (by rw [h8, decide_eq_false_iff_not]; omega) i hi
        have e5 := List.any_eq_false.mp
          (by rw [h5, decide_eq_false_iff_not]; omega) i hi
        rw [isFreeGiftItem, Bool.or_eq_false_iff, beq_eq_false_iff_ne, beq_eq_false_iff_ne]
        exact ⟨fun h => e5 (by simp [h]), fun h => e8 (by simp [h])⟩
      have hfil : l.filter isFreeGiftItem = [] :=
        List.filter_eq_nil_iff.mpr (fun i hi => by simp [hnog i hi])
      have hra : removeAllFreeGifts (refetchCart l) = [] := by
        rw [removeAllFreeGifts, show (refetchCart l).items = l from rfl, hfil]
        rfl
      have hS : calculateCartTotalExcludingFreeGifts (refetchCart l) = 0 := by
        rw [calculate_eq_nonGiftSum]
        exact hS0
      rw [checkAndUpdateGifts, hS]
      simp [hra]
    · have hpaid : hasPaidItems (refetchCart l) = true := by
        rw [hasPaidItems]
        exact hasPaid_of_nonGiftSum_ne hS0
      have hSne : calculateCartTotalExcludingFreeGifts (refetchCart l) ≠ 0 := by
        rw [calculate_eq_nonGiftSum]
        exact hS0
      rw [checkAndUpdateGifts_main hpaid hSne]
      have hSc : calculateCartTotalExcludingFreeGifts (refetchCart l) = nonGiftSum l :=
        calculate_eq_nonGiftSum _
      have e8 : handleGift (refetchCart l) gift8000
          (calculateCartTotalExcludingFreeGifts (refetchCart l)) = [] := by
        apply handleGift_eq_nil_of_matched
        rw [hSc]
        exact h8
      have e5 : handleGift (refetchCart l) gift5000
          (calculateCartTotalExcludingFreeGifts (refetchCart l)) = [] := by
        apply handleGift_eq_nil_of_matched
        rw [hSc]
        exact h5
      rw [e8, e5]
      rfl

theorem runPass_consistent (priceOf : Nat → Nat) (c : Cart)
    (hline : ∀ i ∈ c.items, i.line = 0)
    (hgift : (c.items.filter isFreeGiftItem).length ≤ 1) :
    ((runPass priceOf c).any (fun i => i.variant_id == gift8000.variantId) =
        decide (800000 ≤ nonGiftSum (runPass priceOf c)))
  ∧ ((runPass priceOf c).any (fun i => i.variant_id == gift5000.variantId) =
        decide (500000 ≤ nonGiftSum (runPass priceOf c))) := by
  by_cases hempty : c.items = []
  · have hact : checkAndUpdateGifts c = [] := by
      rw [checkAndUpdateGifts, if_pos (by simp [hempty]), removeAllFreeGifts, hempty]
      rfl
    have hrun : runPass priceOf c = [] := by
      rw [runPass, hact, hempty]
      rfl
    rw [hrun]
    constructor <;> decide
  · by_cases hS0 : calculateCartTotalExcludingFreeGifts c = 0
    · have hSn : nonGiftSum c.items = 0 := by
        rw [← calculate_eq_nonGiftSum]
        exact hS0
      have hact : checkAndUpdateGifts c = removeAllFreeGifts c :=
        checkAndUpdateGifts_eq_removeAll (Or.inr hS0)
      rcases gift_cases hgift with hall | ⟨pre, g, post, heq, hgg, hpre, hpost⟩
      · have hfil : c.items.filter isFreeGiftItem = [] :=
          List.filter_eq_nil_iff.mpr (fun i hi => by simp [hall i hi])
        have hra : removeAllFreeGifts c = [] := by
          rw [removeAllFreeGifts, hfil]
          rfl
        have hrun : runPass priceOf c = c.items := by
          rw [runPass, hact, hra]
          rfl
        rw [hrun, hSn]
        constructor
        · rw [any_variant_eq_false hall (Or.inr rfl)]
          simp
        · rw [any_variant_eq_false hall (Or.inl rfl)]
          simp
      · obtain ⟨hrg, hap⟩ := one_gift_facts heq hgg hpre hpost hline
        have hfil : c.items.filter isFreeGiftItem = [g] := by
          rw [heq]
          exact filter_one_gift hgg hpre hpost
        have hra : removeAllFreeGifts c = [CartAction.change (pre.length + 1) 0] := by
          rw [removeAllFreeGifts, hfil]
          simp [hrg]
        have hrun : runPass priceOf c = pre ++ post := by
          rw [runPass, hact, hra]
          simp only [applyActions, List.foldl_cons, List.foldl_nil, applyAction]
          exact hap
        have hallpp : ∀ i ∈ pre ++ post, isFreeGiftItem i = false := by
          intro i hi
          rcases List.mem_append.mp hi with h | h
          · exact hpre i h
          · exact hpost i h
        have hsum : nonGiftSum (pre ++ post) = 0 := by
          have h0 := hSn
          rw [heq, nonGiftSum_one_gift hgg] at h0
          exact h0
        rw [hrun, hsum]
        constructor
        · rw [any_variant_eq_false hallpp (Or.inr rfl)]
          simp
        · rw [any_variant_eq_false hallpp (Or.inl rfl)]
          simp
    · have hpaid : hasPaidItems c = true := by
        rw [hasPaidItems]
        apply hasPaid_of_nonGiftSum_ne
        rw [← calculate_eq_nonGiftSum]
        exact hS0
      have hact := checkAndUpdateGifts_main hpaid hS0
      have hSc : calculateCartTotalExcludingFreeGifts c = nonGiftSum c.items :=
        calculate_eq_nonGiftSum c
      rcases gift_cases hgift with hall | ⟨pre, g, post, heq, hgg, hpre, hpost⟩
      · -- no gift line present in the snapshot
        have ha8 : c.items.any (fun i => i.variant_id == gift8000.variantId) = false :=
          any_variant_eq_false hall (Or.inr rfl)
        have ha5 : c.items.any (fun i => i.variant_id == gift5000.variantId) = false :=
          any_variant_eq_false hall (Or.inl rfl)
        by_cases h8 : 800000 ≤ nonGiftSum c.items
        · have h5 : 500000 ≤ nonGiftSum c.items := by omega
          have e8 := handleGift_add (g := gift8000) (S := calculateCartTotalExcludingFreeGifts c) ha8
            (by rw [gift8000_threshold, hSc]; exact h8)
          have e5 := handleGift_add (g := gift5000) (S := calculateCartTotalExcludingFreeGifts c) ha5
            (by rw [gift5000_threshold, hSc]; exact h5)
          have hrun : runPass priceOf c =
              applyAdd priceOf (applyAdd priceOf c.items gift8000.variantId 1)
                gift5000.variantId 1 := by
            rw [runPass, hact, e8, e5]
            rfl
          constructor
          · rw [hrun, any_variant_applyAdd, any_variant_applyAdd,
              nonGiftSum_applyAdd _ _ _ (Or.inl rfl), nonGiftSum_applyAdd _ _ _ (Or.inr rfl)]
            simp [h8]
          · rw [hrun, any_variant_applyAdd, any_variant_applyAdd,
              nonGiftSum_applyAdd _ _ _ (Or.inl rfl), nonGiftSum_applyAdd _ _ _ (Or.inr rfl)]
            simp [h5]
        · by_cases h5 : 500000 ≤ nonGiftSum c.items
          · have e8 := handleGift_nil_absent_below (g := gift8000) (S := calculateCartTotalExcludingFreeGifts c) ha8
              (by rw [gift8000_threshold, hSc]; omega)
            have e5 := handleGift_add (g := gift5000) (S := calculateCartTotalExcludingFreeGifts c) ha5
              (by rw [gift5000_threshold, hSc]; exact h5)
            have hrun : runPass priceOf c =
                applyAdd priceOf c.items gift5000.variantId 1 := by
              rw [runPass, hact, e8, e5]
              rfl
            constructor
            · rw [hrun, any_variant_applyAdd, nonGiftSum_applyAdd _ _ _ (Or.inl rfl), ha8]
              simp [h8]
            · rw [hrun, any_variant_applyAdd, nonGiftSum_applyAdd _ _ _ (Or.inl rfl)]
              simp [h5]
          · have e8 := handleGift_nil_absent_below (g := gift8000) (S := calculateCartTotalExcludingFreeGifts c) ha8
              (by rw [gift8000_threshold, hSc]; omega)
            have e5 := handleGift_nil_absent_below (g := gift5000) (S := calculateCartTotalExcludingFreeGifts c) ha5
              (by rw [gift5000_threshold, hSc]; omega)
            have hrun : runPass priceOf c = c.items := by
              rw [runPass, hact, e8, e5]
              rfl
            constructor
            · rw [hrun, ha8]
              simp [h8]
            · rw [hrun, ha5]
              simp [h5]
      · -- exactly one gift line g in the snapshot
        obtain ⟨hrg, hap⟩ := one_gift_facts heq hgg hpre hpost hline
        have hallpp : ∀ i ∈ pre ++ post, isFreeGiftItem i = false := by
          intro i hi
          rcases List.mem_append.mp hi with h | h
          · exact hpre i h
          · exact hpost i h
        have hsum_pp : nonGiftSum (pre ++ post) = nonGiftSum c.items := by
          rw [heq, nonGiftSum_one_gift hgg]
        rcases isFreeGiftItem_iff.mp hgg with hv5 | hv8
        · -- the gift line carries the 5000 variant
          have ha5 : c.items.any (fun i => i.variant_id == gift5000.variantId) = true := by
            rw [heq, one_gift_presence g (Or.inl rfl) hpre hpost, hv5]
            simp
          have ha8 : c.items.any (fun i => i.variant_id == gift8000.variantId) = false := by
            rw [heq, one_gift_presence g (Or.inr rfl) hpre hpost, hv5]
            decide
          rw [hv5] at hrg
          by_cases h8 : 800000 ≤ nonGiftSum c.items
          · have h5 : 500000 ≤ nonGiftSum c.items := by omega
            have e8 := handleGift_add (g := gift8000) (S := calculateCartTotalExcludingFreeGifts c) ha8
              (by rw [gift8000_threshold, hSc]; exact h8)
            have e5 := handleGift_nil_present_above (g := gift5000) (S := calculateCartTotalExcludingFreeGifts c) ha5
              (by rw [gift5000_threshold, hSc]; exact h5)
            have hrun : runPass priceOf c =
                applyAdd priceOf c.items gift8000.variantId 1 := by
              rw [runPass, hact, e8, e5]
              rfl
            constructor
            · rw [hrun, any_variant_applyAdd, nonGiftSum_applyAdd _ _ _ (Or.inr rfl)]
              simp [h8]
            · rw [hrun, any_variant_applyAdd, nonGiftSum_applyAdd _ _ _ (Or.inr rfl), ha5]
              simp [h5]
          · by_cases h5 : 500000 ≤ nonGiftSum c.items
            · have e8 := handleGift_nil_absent_below (g := gift8000) (S := calculateCartTotalExcludingFreeGifts c) ha8
                (by rw [gift8000_threshold, hSc]; omega)
              have e5 := handleGift_nil_present_above (g := gift5000) (S := calculateCartTotalExcludingFreeGifts c) ha5
                (by rw [gift5000_threshold, hSc]; exact h5)
              have hrun : runPass priceOf c = c.items := by
                rw [runPass, hact, e8, e5]
                rfl
              constructor
              · rw [hrun, ha8]
                simp [h8]
              · rw [hrun, ha5]
                simp [h5]
            · have e8 := handleGift_nil_absent_below (g := gift8000) (S := calculateCartTotalExcludingFreeGifts c) ha8
                (by rw [gift8000_threshold, hSc]; omega)
              have e5 := handleGift_remove (g := gift5000) (S := calculateCartTotalExcludingFreeGifts c) ha5
                (by rw [gift5000_threshold, hSc]; omega)
              have hrun : runPass priceOf c = pre ++ post := by
                rw [runPass, hact, e8, e5, hrg]
                simp only [List.nil_append, applyActions, List.foldl_cons,
                  List.foldl_nil, applyAction]
                exact hap
              constructor
              · rw [hrun, any_variant_eq_false hallpp (Or.inr rfl), hsum_pp]
                simp [h8]
              · rw [hrun, any_variant_eq_false hallpp (Or.inl rfl), hsum_pp]
                simp [h5]
        · -- the gift line carries the 8000 variant
          have ha8 : c.items.any (fun i => i.variant_id == gift8000.variantId) = true := by
            rw [heq, one_gift_presence g (Or.inr rfl) hpre hpost, hv8]
            simp
          have ha5 : c.items.any (fun i => i.variant_id == gift5000.variantId) = false := by
            rw [heq, one_gift_presence g (Or.inl rfl) hpre hpost, hv8]
            decide
          rw [hv8] at hrg
          by_cases h8 : 800000 ≤ nonGiftSum c.items
          · have h5 : 500000 ≤ nonGiftSum c.items := by omega
            have e8 := handleGift_nil_present_above (g := gift8000) (S := calculateCartTotalExcludingFreeGifts c) ha8
              (by rw [gift8000_threshold, hSc]; exact h8)
            have e5 := handleGift_add (g := gift5000) (S := calculateCartTotalExcludingFreeGifts c) ha5
              (by rw [gift5000_threshold, hSc]; exact h5)
            have hrun : runPass priceOf c =
                applyAdd priceOf c.items gift5000.variantId 1 := by
              rw [runPass, hact, e8, e5]
              rfl
            constructor
            · rw [hrun, any_variant_applyAdd, nonGiftSum_applyAdd _ _ _ (Or.inl rfl), ha8]
              simp [h8]
            · rw [hrun, any_variant_applyAdd, nonGiftSum_applyAdd _ _ _ (Or.inl rfl)]
              simp [h5]
          · by_cases h5 : 500000 ≤ nonGiftSum c.items
            · have e8 := handleGift_remove (g := gift8000) (S := calculateCartTotalExcludingFreeGifts c) ha8
                (by rw [gift8000_threshold, hSc]; omega)
              have e5 := handleGift_add (g := gift5000) (S := calculateCartTotalExcludingFreeGifts c) ha5
                (by rw [gift5000_threshold, hSc]; exact h5)
              have hrun : runPass priceOf c =
                  applyAdd priceOf (pre ++ post) gift5000.variantId 1 := by
                rw [runPass, hact, e8, hrg, e5]
                simp only [applyActions, List.singleton_append, List.foldl_cons,
                  List.foldl_nil, applyAction]
                rw [hap]
              constructor
              · rw [hrun, any_variant_applyAdd, nonGiftSum_applyAdd _ _ _ (Or.inl rfl),
                  any_variant_eq_false hallpp (Or.inr rfl), hsum_pp]
                simp [h8]
              · rw [hrun, any_variant_applyAdd, nonGiftSum_applyAdd _ _ _ (Or.inl rfl),
                  hsum_pp]
                simp [h5]
            · have e8 := handleGift_remove (g := gift8000) (S := calculateCartTotalExcludingFreeGifts c) ha8
                (by rw [gift8000_threshold, hSc]; omega)
              have e5 := handleGift_nil_absent_below (g := gift5000) (S := calculateCartTotalExcludingFreeGifts c) ha5
                (by rw [gift5000_threshold, hSc]; omega)
              have hrun : runPass priceOf c = pre ++ post := by
                rw [runPass, hact, e8, e5, hrg]
                simp only [List.append_nil, applyActions, List.foldl_cons,
                  List.foldl_nil, applyAction]
                exact hap
              constructor
              · rw [hrun, any_variant_eq_false hallpp (Or.inr rfl), hsum_pp]
                simp [h8]
              · rw [hrun, any_variant_eq_false hallpp (Or.inl rfl), hsum_pp]
                simp [h5]

/-- C6 counterexample: from a snapshot holding both gift lines and one paid
line worth 400000, the completed version-B pass removes the 8000 gift line,
then the stale snapshot line number of the 5000 gift deletes the paid line
instead; re-running the pass on the produced platform state issues a further
removal, so a single completed pass does not converge. -/
theorem C6_single_pass_does_not_converge :
    checkAndUpdateGifts (Cart.mk 600000 3 [gift8000Line, gift5000Line, paidItem 400000]) =
      [CartAction.change 1 0, CartAction.change 2 0]
  ∧ runPass (fun _ => 0) (Cart.mk 600000 3 [gift8000Line, gift5000Line, paidItem 400000]) =
      [gift5000Line]
  ∧ checkAndUpdateGifts (refetchCart (runPass (fun _ => 0)
      (Cart.mk 600000 3 [gift8000Line, gift5000Line, paidItem 400000]))) =
      [CartAction.change 1 0] := by
  decide

/-- C6 amended: the higher-threshold gift is handled before the lower one —
the version-B main path issues the 8000-gift mutations before the 5000-gift
ones, version A does so unconditionally, and the legacy `part_000` pass tests
the 8000 threshold first and ensures the 8000 gift before the 5000 gift when
both are due.  A version-B pass starting from a platform snapshot holding at
most one gift line converges: re-running the pass on the cart state produced
by one completed pass issues no further add or remove mutation.  (A pass
that must remove two gift lines reuses stale snapshot line numbers and need
not converge.) -/
theorem C6_ordering_and_single_pass_convergence (c : Cart) (priceOf : Nat → Nat)
    (hline : ∀ i ∈ c.items, i.line = 0)
    (hgift : (c.items.filter isFreeGiftItem).length ≤ 1) :
    (hasPaidItems c = true → calculateCartTotalExcludingFreeGifts c ≠ 0 →
      checkAndUpdateGifts c =
        handleGift c gift8000 (calculateCartTotalExcludingFreeGifts c) ++
          handleGift c gift5000 (calculateCartTotalExcludingFreeGifts c))
  ∧ (∀ c2 : Cart, checkAndUpdateGiftsA c2 =
      handleGift c2 gift8000 (qualifyingSubtotalA c2) ++
        handleGift c2 gift5000 (qualifyingSubtotalA c2))
  ∧ (∀ c3 : Cart, 800000 ≤ c3.total_price →
      processCartGifts c3 =
        ensureGiftInCart c3 gift8000.variantId ++ ensureGiftInCart c3 gift5000.variantId)
  ∧ checkAndUpdateGifts (refetchCart (runPass priceOf c)) = [] := by
  refine ⟨fun hpaid hS => checkAndUpdateGifts_main hpaid hS, fun c2 => rfl, ?_, ?_⟩
  · intro c3 h3
    rw [processCartGifts, if_pos h3]
  · obtain ⟨h8, h5⟩ := runPass_consistent priceOf c hline hgift
    exact pass_nil_of_consistent (runPass priceOf c) h8 h5

/-- Witness for C6 amended: a one-paid-line cart converges in a single pass. -/
theorem C6_ordering_and_single_pass_convergence_witness :
    checkAndUpdateGifts (refetchCart (runPass (fun _ => 0)
      (Cart.mk 599900 1 [paidItem 599900]))) = [] :=
  (C6_ordering_and_single_pass_convergence (Cart.mk 599900 1 [paidItem 599900])
    (fun _ => 0) (by decide) (by decide)).2.2.2
